import Mathlib

/-
Verification of the article-clustering pipeline (modal-clustering/cluster_api.py).

The pure result-shaping logic of cluster_articles and cluster_endpoint is
embedded directly.  The fitted BERTopic model (the call
topic_model.fit_transform(documents) together with topic_model.get_topic and
topic_model.get_topic_info) is external library code; it is modelled as an
oracle value of type TopicModel whose fields are the per-document labels, the
per-topic word list and the per-topic name.  Contracts of the library that a
theorem needs (index alignment of labels with documents, the configured
min_topic_size = 2, the configured stop-word removal of the CountVectorizer)
appear as explicit hypotheses on that oracle.
-/

/-- An input article record; each of the keys id, title, excerpt may be absent
(dict.get with a default is used in the source). -/
structure Article where
  id : Option String
  title : Option String
  excerpt : Option String
  deriving DecidableEq

/-- One entry of the clusters list built at lines 129-135 of cluster_api.py. -/
structure ClusterResult where
  id : String
  articleIds : List String
  keywords : List String
  topicName : String
  size : Nat
  deriving DecidableEq

/-- The response dictionary of cluster_articles / cluster_endpoint.  A field of
Option type models the presence or absence of the corresponding key. -/
structure Response where
  clusters : List ClusterResult
  message : Option String
  error : Option String
  unclusteredIds : Option (List String)
  totalArticles : Option Nat
  clusteredArticles : Option Nat
  deriving DecidableEq

/-- Oracle for the fitted BERTopic model: labels is the topics array returned
by fit_transform (index-aligned with the prepared documents, -1 marking
outliers), topicWords t is the word list of get_topic(t) (with the falsy
result for an unknown topic modelled as the empty list, the scores dropped),
and topicName t is the Name column of get_topic_info() for topic t when that
row exists. -/
structure TopicModel where
  labels : List Int
  topicWords : Int → List String
  topicName : Int → Option String

/-- article.get('id', '') at line 56. -/
def articleId (a : Article) : String := a.id.getD ""

/-- str.strip() of the source, modelled over the character list: whitespace
removed from both ends. -/
def pyStrip (s : String) : String :=
  ⟨((s.data.dropWhile Char.isWhitespace).reverse.dropWhile Char.isWhitespace).reverse⟩

/-- The derived document text of line 53:
f-string concatenation of title and excerpt, then strip(). -/
def derivedText (a : Article) : String :=
  pyStrip (a.title.getD "" ++ " " ++ a.excerpt.getD "")

/-- The document-preparation loop at lines 50-56: the (text, id) pairs of the
articles whose derived text is non-empty, in input order.  The first component
is the documents list, the second the article_ids list. -/
def prepped (articles : List Article) : List (String × String) :=
  articles.filterMap (fun a =>
    if derivedText a = "" then none else some (derivedText a, articleId a))

/-- The article_ids list built at lines 51-56. -/
def docIds (articles : List Article) : List String :=
  (prepped articles).map Prod.snd

/-- The french_stop_words list of lines 68-75, passed to the CountVectorizer. -/
def french_stop_words : List String :=
  ["le", "la", "les", "de", "du", "des", "un", "une", "et", "est", "en",
   "que", "qui", "dans", "pour", "sur", "avec", "par", "au", "aux", "ce",
   "cette", "ces", "son", "sa", "ses", "leur", "leurs", "nous", "vous",
   "ils", "elles", "ont", "sont", "être", "avoir", "fait", "faire", "plus",
   "tout", "tous", "toute", "toutes", "peut", "même", "aussi", "comme",
   "mais", "ou", "donc", "car", "ni", "ne", "pas", "se", "si", "sans"]

/-- The ids (second components of the zipped pairs) whose label equals t, in
original order: for t a topic this is the articleIds list of the group built
at lines 104-114, and for t = -1 it is the unclustered_ids list of
lines 141-143. -/
def members (ids : List String) (labels : List Int) (t : Int) : List String :=
  ((ids.zip labels).filter (fun p => p.2 == t)).map Prod.fst

/-- Appending a key to a Python dict when absent (line 108-109). -/
def insertKey (ks : List Int) (t : Int) : List Int :=
  if t ∈ ks then ks else ks ++ [t]

/-- One step of building the insertion-ordered key list of topic_to_articles:
an outlier label is skipped (line 106-107). -/
def addKey (ks : List Int) (t : Int) : List Int :=
  if t = -1 then ks else insertKey ks t

/-- The keys of the topic_to_articles dict of lines 104-114, in insertion
order (first occurrence order of the non-outlier labels). -/
def groupKeys (labels : List Int) : List Int :=
  labels.foldl addKey []

/-- The cluster object appended at lines 129-135 for topic t. -/
def mkCluster (o : TopicModel) (ids : List String) (t : Int) : ClusterResult :=
  { id := "cluster-" ++ toString t
    articleIds := members ids o.labels t
    keywords := (o.topicWords t).take 5
    topicName := (o.topicName t).getD ("Topic " ++ toString t)
    size := (members ids o.labels t).length }

/-- The cluster-building loop at lines 117-135: every group of the
topic_to_articles dict, in key-insertion order, with groups of fewer than 2
members skipped (line 118). -/
def buildClusters (o : TopicModel) (ids : List String) : List ClusterResult :=
  (groupKeys o.labels).filterMap (fun t =>
    if (members ids o.labels t).length < 2 then none
    else some (mkCluster o ids t))

/-- The comparison of the size-descending sort of line 138. -/
def clusterLE (a b : ClusterResult) : Bool := b.size ≤ a.size

/-- clusters.sort(key=size, reverse=True) at line 138: a stable descending
sort by size. -/
def sortClusters (cs : List ClusterResult) : List ClusterResult :=
  cs.mergeSort clusterLE

/-- The early-return dictionaries of lines 44-47 and 59-62:
clusters empty, a message, and no other key. -/
def failResponse (msg : String) : Response :=
  { clusters := [], message := some msg, error := none,
    unclusteredIds := none, totalArticles := none, clusteredArticles := none }

/-- The success dictionary of lines 145-151. -/
def successResponse (o : TopicModel) (articles : List Article) : Response :=
  { clusters := sortClusters (buildClusters o (docIds articles))
    message := some ("Successfully created " ++
      toString (sortClusters (buildClusters o (docIds articles))).length ++ " clusters")
    error := none
    unclusteredIds := some (members (docIds articles) o.labels (-1))
    totalArticles := some (prepped articles).length
    clusteredArticles := some
      ((prepped articles).length - (members (docIds articles) o.labels (-1)).length) }

/-- cluster_articles (lines 28-151), with the fitted model supplied as the
oracle o.  The guard `not articles or len(articles) < 3` of line 43 is
equivalent to len(articles) < 3 since an empty list has length 0. -/
def cluster_articles (o : TopicModel) (articles : List Article) : Response :=
  if articles.length < 3 then
    failResponse "Not enough articles to cluster (minimum 3)"
  else if (prepped articles).length < 3 then
    failResponse "Not enough valid documents to cluster"
  else
    successResponse o articles

/-- cluster_endpoint (lines 157-182).  data is the value of the articles key
of the request body (none when the key is missing); run models the remote
call cluster_articles.remote, returning either a response or the message
string of a raised exception. -/
def cluster_endpoint (run : List Article → Except String Response)
    (data : Option (List Article)) : Response :=
  if (data.getD []).isEmpty then
    { clusters := [], message := none, error := some "No articles provided",
      unclusteredIds := none, totalArticles := none, clusteredArticles := none }
  else
    match run (data.getD []) with
    | Except.ok r => r
    | Except.error e =>
        { clusters := [], message := some ("Clustering failed: " ++ e),
          error := some e,
          unclusteredIds := none, totalArticles := none, clusteredArticles := none }

/- ------------------------------------------------------------------ -/
/- Basic lemmas about the embedding.                                   -/
/- ------------------------------------------------------------------ -/

lemma prepped_length (articles : List Article) :
    (prepped articles).length = articles.countP (fun a => !(derivedText a == "")) := by
  induction articles with
  | nil => rfl
  | cons a l ih =>
      by_cases h : derivedText a = "" <;>
        simp [prepped, List.filterMap_cons, List.countP_cons, h, ← ih, prepped]

lemma docIds_eq (articles : List Article) :
    docIds articles
      = (articles.filter (fun a => !(derivedText a == ""))).map articleId := by
  induction articles with
  | nil => rfl
  | cons a l ih =>
      by_cases h : derivedText a = "" <;>
        simp [docIds, prepped, List.filterMap_cons, List.filter_cons, h, ← ih, docIds]

lemma cluster_articles_success (o : TopicModel) (articles : List Article)
    (h3 : 3 ≤ articles.length) (hv : 3 ≤ (prepped articles).length) :
    cluster_articles o articles = successResponse o articles := by
  unfold cluster_articles
  rw [if_neg (by omega), if_neg (by omega)]

lemma clusters_eq (o : TopicModel) (articles : List Article) :
    (cluster_articles o articles).clusters = [] ∨
    (cluster_articles o articles).clusters
      = sortClusters (buildClusters o (docIds articles)) := by
  unfold cluster_articles
  split
  · exact Or.inl rfl
  · split
    · exact Or.inl rfl
    · exact Or.inr rfl

lemma mem_buildClusters {o : TopicModel} {ids : List String} {c : ClusterResult}
    (hc : c ∈ buildClusters o ids) :
    ∃ t, t ∈ groupKeys o.labels ∧ 2 ≤ (members ids o.labels t).length ∧
      c = mkCluster o ids t := by
  unfold buildClusters at hc
  rw [List.mem_filterMap] at hc
  obtain ⟨t, ht, hf⟩ := hc
  by_cases h : (members ids o.labels t).length < 2
  · simp [h] at hf
  · refine ⟨t, ht, by omega, ?_⟩
    simp [h] at hf
    exact hf.symm

lemma mem_clusters {o : TopicModel} {articles : List Article} {c : ClusterResult}
    (hc : c ∈ (cluster_articles o articles).clusters) :
    c ∈ buildClusters o (docIds articles) := by
  rcases clusters_eq o articles with h | h
  · rw [h] at hc; cases hc
  · rw [h] at hc
    unfold sortClusters at hc
    exact List.mem_mergeSort.mp hc

lemma mem_members {s : String} {ids : List String} {labels : List Int} {t : Int}
    (h : s ∈ members ids labels t) : s ∈ ids := by
  unfold members at h
  rw [List.mem_map] at h
  obtain ⟨p, hp, hps⟩ := h
  rw [List.mem_filter] at hp
  have := List.of_mem_zip (a := p.1) (b := p.2) (by simpa using hp.1)
  simpa [hps] using this.1

/- ------------------------------------------------------------------ -/
/- Concrete fixtures used by the witnesses.                            -/
/- ------------------------------------------------------------------ -/

/-- A remote call that always raises, with exception message boom. -/
def runBoom : List Article → Except String Response :=
  fun _ => Except.error "boom"

def artA : Article := ⟨some "a", some "Alpha", some "premier sujet"⟩

def artB : Article := ⟨some "b", some "Beta", none⟩

def artC : Article := ⟨some "c", some "Gamma", none⟩

def artD : Article := ⟨some "d", none, some "Delta"⟩

def arts4 : List Article := [artA, artB, artC, artD]

/-- An oracle for arts4: one topic of two documents, two outliers. -/
def o4 : TopicModel :=
  { labels := [0, 0, -1, -1]
    topicWords := fun t => if t = 0 then ["reforme", "retraites"] else []
    topicName := fun t => if t = 0 then some "0_reforme" else none }

def oEmpty : TopicModel :=
  { labels := [], topicWords := fun _ => [], topicName := fun _ => none }

/-- Three articles of which only the first has non-empty derived text. -/
def arts2 : List Article :=
  [⟨some "a", some "T", none⟩, ⟨some "b", none, none⟩, ⟨some "c", none, some ""⟩]

/- ------------------------------------------------------------------ -/
/- Claims.                                                             -/
/- ------------------------------------------------------------------ -/

/-- Claim C2: for every input in which fewer than 3 articles have non-empty
derived text, cluster_articles returns a record with empty clusters and a
non-empty message, and with no error field, no unclusteredIds key and no
totalArticles or clusteredArticles counts. -/
theorem C2_insufficient_input (o : TopicModel) (articles : List Article)
    (h : articles.countP (fun a => !(derivedText a == "")) < 3) :
    ∃ msg : String, msg ≠ "" ∧
      cluster_articles o articles =
        { clusters := [], message := some msg, error := none,
          unclusteredIds := none, totalArticles := none,
          clusteredArticles := none } := by
  unfold cluster_articles
  by_cases h3 : articles.length < 3
  · refine ⟨"Not enough articles to cluster (minimum 3)", by decide, ?_⟩
    rw [if_pos h3]
    rfl
  · have hv : (prepped articles).length < 3 := by rw [prepped_length]; exact h
    refine ⟨"Not enough valid documents to cluster", by decide, ?_⟩
    rw [if_neg h3, if_pos hv]
    rfl

theorem C2_witness :
    (arts2.countP (fun a => !(derivedText a == "")) < 3) ∧
    (∃ msg : String, msg ≠ "" ∧
      cluster_articles oEmpty arts2 =
        { clusters := [], message := some msg, error := none,
          unclusteredIds := none, totalArticles := none,
          clusteredArticles := none }) :=
  ⟨by decide, C2_insufficient_input oEmpty arts2 (by decide)⟩

/-- Claim C3: for a request whose article list is empty or missing, the
endpoint returns a record with a non-empty error string and empty clusters
and no message key, a shape distinct from the insufficient-input response
(which carries a message and no error field). -/
theorem C3_empty_request (run : List Article → Except String Response)
    (data : Option (List Article)) (h : data = none ∨ data = some []) :
    (cluster_endpoint run data).error = some "No articles provided" ∧
    "No articles provided" ≠ "" ∧
    (cluster_endpoint run data).clusters = [] ∧
    (cluster_endpoint run data).message = none ∧
    ∀ msg : String, cluster_endpoint run data ≠ failResponse msg := by
  have hd : cluster_endpoint run data =
      { clusters := [], message := none, error := some "No articles provided",
        unclusteredIds := none, totalArticles := none,
        clusteredArticles := none } := by
    rcases h with h | h <;> subst h <;> rfl
  refine ⟨by rw [hd], by decide, by rw [hd], by rw [hd], ?_⟩
  intro msg hcontra
  rw [hd] at hcontra
  have := congrArg Response.error hcontra
  simp [failResponse] at this

theorem C3_witness :
    ((some ([] : List Article)) = none ∨ (some ([] : List Article)) = some []) ∧
    ((cluster_endpoint runBoom (some [])).error = some "No articles provided" ∧
     "No articles provided" ≠ "" ∧
     (cluster_endpoint runBoom (some [])).clusters = [] ∧
     (cluster_endpoint runBoom (some [])).message = none ∧
     ∀ msg : String, cluster_endpoint runBoom (some []) ≠ failResponse msg) :=
  ⟨Or.inr rfl, C3_empty_request runBoom (some []) (Or.inr rfl)⟩

/-- Claim C4: when the clustering computation raises an exception with
message e on a non-empty article list, the endpoint catches it and returns
the record with error = e, empty clusters, and message
"Clustering failed: " followed by e; nothing propagates and no partial
clustering result is returned. -/
theorem C4_exception_caught (run : List Article → Except String Response)
    (data : Option (List Article)) (e : String)
    (hne : (data.getD []).isEmpty = false)
    (herr : run (data.getD []) = Except.error e) :
    cluster_endpoint run data =
      { clusters := [], message := some ("Clustering failed: " ++ e),
        error := some e, unclusteredIds := none, totalArticles := none,
        clusteredArticles := none } := by
  unfold cluster_endpoint
  rw [if_neg (by simp [hne]), herr]

theorem C4_witness :
    (((some [artA]).getD []).isEmpty = false ∧
     runBoom ((some [artA]).getD []) = Except.error "boom") ∧
    cluster_endpoint runBoom (some [artA]) =
      { clusters := [], message := some ("Clustering failed: " ++ "boom"),
        error := some "boom", unclusteredIds := none, totalArticles := none,
        clusteredArticles := none } :=
  ⟨⟨rfl, rfl⟩, C4_exception_caught runBoom (some [artA]) "boom" rfl rfl⟩

/-- Claim C5: every ClusterResult of a result of cluster_articles has
size equal to the length of its articleIds and size at least 2. -/
theorem C5_size_consistent (o : TopicModel) (articles : List Article)
    (c : ClusterResult) (hc : c ∈ (cluster_articles o articles).clusters) :
    c.size = c.articleIds.length ∧ 2 ≤ c.size := by
  obtain ⟨t, _, hlen, hct⟩ := mem_buildClusters (mem_clusters hc)
  subst hct
  exact ⟨rfl, hlen⟩

/-- The single cluster produced on the fixture arts4 with oracle o4. -/
def c0 : ClusterResult :=
  { id := "cluster-0", articleIds := ["a", "b"],
    keywords := ["reforme", "retraites"], topicName := "0_reforme", size := 2 }

theorem C5_witness :
    c0 ∈ (cluster_articles o4 arts4).clusters ∧
    (c0.size = c0.articleIds.length ∧ 2 ≤ c0.size) :=
  have hc : c0 ∈ (cluster_articles o4 arts4).clusters :=
    List.mem_mergeSort.mpr (by decide)
  ⟨hc, C5_size_consistent o4 arts4 c0 hc⟩

/-- Three articles of which the last lacks the id key. -/
def artsMissing : List Article :=
  [⟨some "p", some "Premier", none⟩, ⟨some "q", some "Second", none⟩,
   ⟨none, some "Troisieme", none⟩]

/-- An oracle for artsMissing: the id-less article is the outlier. -/
def oMissing : TopicModel :=
  { labels := [0, 0, -1], topicWords := fun _ => [], topicName := fun _ => none }

/-- Claim C10: an article record lacking the id key gets the empty string
substituted as its id (the dict.get default at line 56), so an empty-string
id can appear in the output (here in unclusteredIds on a concrete run), and
a missing id never makes the call fail: cluster_articles always returns a
record, with no error field, whatever the articles. -/
theorem C10_missing_id_defaults :
    (∀ a : Article, a.id = none → articleId a = "")
    ∧ ((artsMissing.map Article.id).getLast? = some none
        ∧ (cluster_articles oMissing artsMissing).unclusteredIds = some [""])
    ∧ (∀ (o : TopicModel) (articles : List Article),
        (cluster_articles o articles).error = none) := by
  refine ⟨?_, ⟨rfl, ?_⟩, ?_⟩
  · intro a h
    simp [articleId, h]
  · rfl
  · intro o articles
    unfold cluster_articles
    split
    · rfl
    · split <;> rfl

theorem C10_witness :
    ((⟨none, some "x", none⟩ : Article).id = none)
    ∧ articleId ⟨none, some "x", none⟩ = "" :=
  ⟨rfl, C10_missing_id_defaults.1 ⟨none, some "x", none⟩ rfl⟩

lemma unclusteredIds_eq (o : TopicModel) (articles : List Article) :
    (cluster_articles o articles).unclusteredIds = none ∨
    (cluster_articles o articles).unclusteredIds
      = some (members (docIds articles) o.labels (-1)) := by
  unfold cluster_articles
  split
  · exact Or.inl rfl
  · split
    · exact Or.inl rfl
    · exact Or.inr rfl

lemma totalArticles_eq (o : TopicModel) (articles : List Article) :
    (cluster_articles o articles).totalArticles = none ∨
    (cluster_articles o articles).totalArticles
      = some (prepped articles).length := by
  unfold cluster_articles
  split
  · exact Or.inl rfl
  · split
    · exact Or.inl rfl
    · exact Or.inr rfl

lemma empty_text_id_not_mem {articles : List Article} {a : Article}
    (hnodup : (articles.map articleId).Nodup) (hmem : a ∈ articles)
    (hempty : derivedText a = "") : articleId a ∉ docIds articles := by
  rw [docIds_eq]
  intro hin
  rw [List.mem_map] at hin
  obtain ⟨b, hb, hba⟩ := hin
  rw [List.mem_filter] at hb
  obtain ⟨hb1, hb2⟩ := hb
  have hab : b = a := List.inj_on_of_nodup_map hnodup hb1 hmem hba
  subst hab
  rw [hempty] at hb2
  simp at hb2

/-- Claim C7: in every success result, totalArticles is the number of input
articles with non-empty derived text and clusteredArticles is totalArticles
minus the length of unclusteredIds; members of too-small dropped groups are
therefore still counted as clustered. -/
theorem C7_counts (o : TopicModel) (articles : List Article)
    (h3 : 3 ≤ articles.length) (hv : 3 ≤ (prepped articles).length) :
    (cluster_articles o articles).totalArticles
      = some (articles.countP (fun a => !(derivedText a == "")))
    ∧ ∀ unc : List String,
        (cluster_articles o articles).unclusteredIds = some unc →
        (cluster_articles o articles).clusteredArticles
          = some (articles.countP (fun a => !(derivedText a == "")) - unc.length) := by
  rw [cluster_articles_success o articles h3 hv]
  constructor
  · simp [successResponse, prepped_length]
  · intro unc hunc
    simp only [successResponse, Option.some.injEq] at hunc
    simp [successResponse, ← prepped_length, ← hunc]

theorem C7_witness :
    (3 ≤ arts4.length ∧ 3 ≤ (prepped arts4).length) ∧
    ((cluster_articles o4 arts4).totalArticles
        = some (arts4.countP (fun a => !(derivedText a == "")))
      ∧ ∀ unc : List String,
          (cluster_articles o4 arts4).unclusteredIds = some unc →
          (cluster_articles o4 arts4).clusteredArticles
            = some (arts4.countP (fun a => !(derivedText a == "")) - unc.length)) :=
  ⟨⟨by decide, by decide⟩, C7_counts o4 arts4 (by decide) (by decide)⟩

/-- Claim C9: under the contract of the CountVectorizer configured at lines
78-82 (extracted topic words avoid the configured stop-word list), every
ClusterResult has at most 5 keywords none of which is a stop word, and a
topic yielding no eligible keywords gives the empty keyword sequence. -/
theorem C9_keywords (o : TopicModel) (articles : List Article)
    (hstop : ∀ (t : Int) (w : String), w ∈ o.topicWords t → w ∉ french_stop_words) :
    (∀ c ∈ (cluster_articles o articles).clusters,
        c.keywords.length ≤ 5 ∧ ∀ w ∈ c.keywords, w ∉ french_stop_words)
    ∧ (∀ (ids : List String) (t : Int),
        o.topicWords t = [] → (mkCluster o ids t).keywords = []) := by
  constructor
  · intro c hc
    obtain ⟨t, _, _, hct⟩ := mem_buildClusters (mem_clusters hc)
    subst hct
    constructor
    · show ((o.topicWords t).take 5).length ≤ 5
      rw [List.length_take]
      exact min_le_left _ _
    · intro w hw
      exact hstop t w (List.mem_of_mem_take hw)
  · intro ids t h
    simp [mkCluster, h]

theorem C9_witness :
    (∀ (t : Int) (w : String), w ∈ o4.topicWords t → w ∉ french_stop_words) ∧
    ((∀ c ∈ (cluster_articles o4 arts4).clusters,
        c.keywords.length ≤ 5 ∧ ∀ w ∈ c.keywords, w ∉ french_stop_words)
     ∧ (∀ (ids : List String) (t : Int),
          o4.topicWords t = [] → (mkCluster o4 ids t).keywords = [])) :=
  have hstop : ∀ (t : Int) (w : String),
      w ∈ o4.topicWords t → w ∉ french_stop_words := by
    have key : ∀ w ∈ (["reforme", "retraites"] : List String),
        w ∉ french_stop_words := by decide
    intro t w hw
    by_cases h : t = 0
    · subst h
      exact key w (by simpa [o4] using hw)
    · simp [o4, h] at hw
  ⟨hstop, C9_keywords o4 arts4 hstop⟩

/-- Three valid articles and one article with empty derived text. -/
def artE : Article := ⟨some "e", none, none⟩

def artsE : List Article := [artA, artB, artC, artE]

def oE : TopicModel :=
  { labels := [0, 0, -1], topicWords := fun _ => [], topicName := fun _ => none }

/-- Claim C8: the derived text is the stripped concatenation of title (or the
empty string when absent), one space, and excerpt (or the empty string when
absent); with pairwise-distinct input ids (as the data model assumes), an
article whose derived text is empty appears in no articleIds of any cluster
and not in unclusteredIds, and totalArticles, when present, counts only the
articles with non-empty derived text. -/
theorem C8_empty_text_dropped (o : TopicModel) (articles : List Article)
    (a : Article) (hnodup : (articles.map articleId).Nodup)
    (hmem : a ∈ articles) (hempty : derivedText a = "") :
    (∀ b : Article,
        derivedText b = pyStrip (b.title.getD "" ++ " " ++ b.excerpt.getD ""))
    ∧ (∀ c ∈ (cluster_articles o articles).clusters, articleId a ∉ c.articleIds)
    ∧ (∀ unc : List String,
        (cluster_articles o articles).unclusteredIds = some unc →
          articleId a ∉ unc)
    ∧ ((cluster_articles o articles).totalArticles = none ∨
        (cluster_articles o articles).totalArticles
          = some (articles.countP (fun b => !(derivedText b == "")))) := by
  have hnot : articleId a ∉ docIds articles :=
    empty_text_id_not_mem hnodup hmem hempty
  refine ⟨fun b => rfl, ?_, ?_, ?_⟩
  · intro c hc hin
    obtain ⟨t, _, _, hct⟩ := mem_buildClusters (mem_clusters hc)
    subst hct
    exact hnot (mem_members hin)
  · intro unc hunc hin
    rcases unclusteredIds_eq o articles with h | h
    · rw [h] at hunc; cases hunc
    · rw [h] at hunc
      injection hunc with hunc
      subst hunc
      exact hnot (mem_members hin)
  · rcases totalArticles_eq o articles with h | h
    · exact Or.inl h
    · exact Or.inr (by rw [h, prepped_length])

theorem C8_witness :
    ((artsE.map articleId).Nodup ∧ artE ∈ artsE ∧ derivedText artE = "") ∧
    ((∀ b : Article,
        derivedText b = pyStrip (b.title.getD "" ++ " " ++ b.excerpt.getD ""))
     ∧ (∀ c ∈ (cluster_articles oE artsE).clusters, articleId artE ∉ c.articleIds)
     ∧ (∀ unc : List String,
          (cluster_articles oE artsE).unclusteredIds = some unc →
            articleId artE ∉ unc)
     ∧ ((cluster_articles oE artsE).totalArticles = none ∨
         (cluster_articles oE artsE).totalArticles
           = some (artsE.countP (fun b => !(derivedText b == ""))))) :=
  ⟨⟨by decide, by decide, by decide⟩,
    C8_empty_text_dropped oE artsE artE (by decide) (by decide) (by decide)⟩

lemma clusterLE_trans : ∀ a b c : ClusterResult,
    clusterLE a b = true → clusterLE b c = true → clusterLE a c = true := by
  intro a b c h1 h2
  simp only [clusterLE, decide_eq_true_eq] at *
  omega

lemma clusterLE_total : ∀ a b : ClusterResult,
    (clusterLE a b || clusterLE b a) = true := by
  intro a b
  simp only [clusterLE, Bool.or_eq_true, decide_eq_true_eq]
  omega

/-- Claim C6: in every success result the clusters list is sorted by size in
descending order, and ties keep the relative order in which the grouping
step produced them (stable sort): filtering the output at any fixed size
gives exactly the same-size clusters of buildClusters in their original
order. -/
theorem C6_sorted_stable (o : TopicModel) (articles : List Article)
    (h3 : 3 ≤ articles.length) (hv : 3 ≤ (prepped articles).length) :
    ((cluster_articles o articles).clusters).Pairwise (fun c d => d.size ≤ c.size)
    ∧ ∀ n : Nat,
        ((cluster_articles o articles).clusters).filter (fun c => c.size == n)
          = (buildClusters o (docIds articles)).filter (fun c => c.size == n) := by
  rw [cluster_articles_success o articles h3 hv]
  simp only [successResponse]
  constructor
  · have h := List.sorted_mergeSort clusterLE_trans clusterLE_total
      (buildClusters o (docIds articles))
    exact h.imp (fun hab => by simpa [clusterLE] using hab)
  · intro n
    have hall : ∀ c ∈ (buildClusters o (docIds articles)).filter (fun c => c.size == n),
        ∀ d ∈ (buildClusters o (docIds articles)).filter (fun c => c.size == n),
          clusterLE c d = true := by
      intro c hc d hd
      rw [List.mem_filter] at hc hd
      have h1 : c.size = n := by simpa using hc.2
      have h2 : d.size = n := by simpa using hd.2
      simp [clusterLE, h1, h2]
    have hpw := List.pairwise_of_forall_mem_list hall
    have hsub : ((buildClusters o (docIds articles)).filter
        (fun c => c.size == n)).Sublist
          (sortClusters (buildClusters o (docIds articles))) :=
      List.mergeSort_stable clusterLE_trans clusterLE_total hpw
        (List.filter_sublist (buildClusters o (docIds articles)))
    have h1 : (((buildClusters o (docIds articles)).filter
        (fun c => c.size == n)).filter (fun c => c.size == n))
          = (buildClusters o (docIds articles)).filter (fun c => c.size == n) :=
      List.filter_eq_self.mpr (fun a ha => (List.mem_filter.mp ha).2)
    have hsub2 := List.Sublist.filter (fun c => c.size == n) hsub
    rw [h1] at hsub2
    have hlen : ((sortClusters (buildClusters o (docIds articles))).filter
        (fun c => c.size == n)).length
          = ((buildClusters o (docIds articles)).filter
              (fun c => c.size == n)).length :=
      ((List.mergeSort_perm (buildClusters o (docIds articles))
          clusterLE).filter (fun c => c.size == n)).length_eq
    exact (hsub2.eq_of_length hlen.symm).symm

theorem C6_witness :
    (3 ≤ arts4.length ∧ 3 ≤ (prepped arts4).length) ∧
    (((cluster_articles o4 arts4).clusters).Pairwise (fun c d => d.size ≤ c.size)
     ∧ ∀ n : Nat,
        ((cluster_articles o4 arts4).clusters).filter (fun c => c.size == n)
          = (buildClusters o4 (docIds arts4)).filter (fun c => c.size == n)) :=
  ⟨⟨by decide, by decide⟩, C6_sorted_stable o4 arts4 (by decide) (by decide)⟩

lemma sum_map_add (K : List Int) (f g : Int → Nat) :
    (K.map (fun t => f t + g t)).sum = (K.map f).sum + (K.map g).sum := by
  induction K with
  | nil => rfl
  | cons a K ih =>
      simp only [List.map_cons, List.sum_cons, ih]
      omega

lemma sum_indicator_zero (c : Bool) (t0 : Int) :
    ∀ K : List Int, t0 ∉ K →
      (K.map (fun t => if (c && (t0 == t)) = true then 1 else 0)).sum = 0 := by
  intro K
  induction K with
  | nil => intro _; rfl
  | cons a K ih =>
      intro h
      have ha : t0 ≠ a := fun hh => h (by simp [hh])
      have hK : t0 ∉ K := fun hh => h (List.mem_cons_of_mem a hh)
      rw [List.map_cons, List.sum_cons, ih hK]
      have hfalse : (c && (t0 == a)) = false := by simp [ha]
      rw [hfalse]
      simp

lemma sum_indicator_mem (c : Bool) (t0 : Int) :
    ∀ K : List Int, K.Nodup → t0 ∈ K →
      (K.map (fun t => if (c && (t0 == t)) = true then 1 else 0)).sum
        = if c = true then 1 else 0 := by
  intro K
  induction K with
  | nil => intro _ h; cases h
  | cons a K ih =>
      intro hnd hmem
      rw [List.nodup_cons] at hnd
      by_cases ha : t0 = a
      · subst ha
        simp only [List.map_cons, List.sum_cons, sum_indicator_zero c t0 K hnd.1]
        cases c <;> simp
      · have hK : t0 ∈ K := by
          rcases List.mem_cons.mp hmem with h | h
          · exact absurd h ha
          · exact h
        rw [List.map_cons, List.sum_cons, ih hnd.2 hK]
        have hfalse : (c && (t0 == a)) = false := by simp [ha]
        rw [hfalse]
        simp

lemma partition_countP (s : String) (K : List Int) (hK : K.Nodup) :
    ∀ zs : List (String × Int), (∀ p ∈ zs, p.2 ∈ K) →
      (K.map (fun t => zs.countP (fun p => p.1 == s && p.2 == t))).sum
        = zs.countP (fun p => p.1 == s) := by
  intro zs
  induction zs with
  | nil => intro _; simp
  | cons q zs ih =>
      intro hcov
      have hq : q.2 ∈ K := hcov q (List.mem_cons_self q zs)
      have hcov2 : ∀ p ∈ zs, p.2 ∈ K :=
        fun p hp => hcov p (List.mem_cons_of_mem q hp)
      simp only [List.countP_cons]
      rw [sum_map_add, ih hcov2, sum_indicator_mem (q.1 == s) q.2 K hK hq]

lemma mem_insertKey (ks : List Int) (t x : Int) :
    x ∈ insertKey ks t ↔ x ∈ ks ∨ x = t := by
  unfold insertKey
  split
  · rename_i hin
    constructor
    · exact fun h => Or.inl h
    · intro h
      rcases h with h | h
      · exact h
      · subst h; exact hin
  · simp

lemma nodup_insertKey (ks : List Int) (t : Int) (h : ks.Nodup) :
    (insertKey ks t).Nodup := by
  unfold insertKey
  split
  · exact h
  · rename_i hnot
    refine List.Nodup.append h (List.nodup_singleton t) ?_
    intro a ha hb
    rw [List.mem_singleton] at hb
    subst hb
    exact hnot ha

lemma foldl_addKey_mem (x : Int) :
    ∀ (ls acc : List Int),
      x ∈ ls.foldl addKey acc ↔ x ∈ acc ∨ (x ∈ ls ∧ x ≠ -1) := by
  intro ls
  induction ls with
  | nil => intro acc; simp
  | cons a ls ih =>
      intro acc
      rw [List.foldl_cons, ih]
      by_cases ha : a = -1
      · subst ha
        rw [show addKey acc (-1) = acc from by simp [addKey]]
        simp only [List.mem_cons]
        constructor
        · intro h
          rcases h with h | ⟨h1, h2⟩
          · exact Or.inl h
          · exact Or.inr ⟨Or.inr h1, h2⟩
        · intro h
          rcases h with h | ⟨h1, h2⟩
          · exact Or.inl h
          · rcases h1 with h1 | h1
            · exact absurd h1 h2
            · exact Or.inr ⟨h1, h2⟩
      · rw [show addKey acc a = insertKey acc a from by simp [addKey, ha],
          mem_insertKey]
        simp only [List.mem_cons]
        constructor
        · intro h
          rcases h with (h | h) | ⟨h1, h2⟩
          · exact Or.inl h
          · subst h; exact Or.inr ⟨Or.inl rfl, ha⟩
          · exact Or.inr ⟨Or.inr h1, h2⟩
        · intro h
          rcases h with h | ⟨h1, h2⟩
          · exact Or.inl (Or.inl h)
          · rcases h1 with h1 | h1
            · exact Or.inl (Or.inr h1)
            · exact Or.inr ⟨h1, h2⟩

lemma foldl_addKey_nodup :
    ∀ (ls acc : List Int), acc.Nodup → (ls.foldl addKey acc).Nodup := by
  intro ls
  induction ls with
  | nil => intro acc h; exact h
  | cons a ls ih =>
      intro acc h
      rw [List.foldl_cons]
      apply ih
      unfold addKey
      split
      · exact h
      · exact nodup_insertKey acc a h

lemma groupKeys_mem (labels : List Int) (x : Int) :
    x ∈ groupKeys labels ↔ x ∈ labels ∧ x ≠ -1 := by
  unfold groupKeys
  rw [foldl_addKey_mem]
  simp

lemma groupKeys_nodup (labels : List Int) : (groupKeys labels).Nodup :=
  foldl_addKey_nodup labels [] List.nodup_nil

lemma countP_zip_snd (t : Int) :
    ∀ (ids : List String) (ls : List Int), ids.length = ls.length →
      (ids.zip ls).countP (fun p => p.2 == t) = ls.count t := by
  intro ids
  induction ids with
  | nil =>
      intro ls h
      cases ls with
      | nil => rfl
      | cons l ls => simp at h
  | cons i ids ih =>
      intro ls h
      cases ls with
      | nil => simp at h
      | cons l ls =>
          simp only [List.zip_cons_cons, List.countP_cons, List.count_cons]
          rw [ih ls (by simpa using h)]

lemma members_length (ids : List String) (ls : List Int) (t : Int)
    (h : ids.length = ls.length) :
    (members ids ls t).length = ls.count t := by
  unfold members
  rw [List.length_map, ← List.countP_eq_length_filter]
  exact countP_zip_snd t ids ls h

lemma members_count (ids : List String) (ls : List Int) (t : Int) (s : String) :
    (members ids ls t).count s
      = (ids.zip ls).countP (fun p => p.1 == s && p.2 == t) := by
  unfold members
  rw [List.count_eq_countP, List.countP_map, List.countP_filter]
  rfl

lemma filterMap_eq_map_of_some {α β : Type _} (f : α → Option β) (g : α → β) :
    ∀ ks : List α, (∀ a ∈ ks, f a = some (g a)) → ks.filterMap f = ks.map g := by
  intro ks
  induction ks with
  | nil => intro _; rfl
  | cons a ks ih =>
      intro h
      simp only [List.filterMap_cons, h a (List.mem_cons_self a ks), List.map_cons,
        ih (fun b hb => h b (List.mem_cons_of_mem a hb))]

lemma buildClusters_eq_map (o : TopicModel) (ids : List String)
    (hlen : ids.length = o.labels.length)
    (hmin : ∀ t : Int, t ∈ o.labels → t ≠ -1 → 2 ≤ o.labels.count t) :
    buildClusters o ids = (groupKeys o.labels).map (mkCluster o ids) := by
  unfold buildClusters
  apply filterMap_eq_map_of_some
  intro t ht
  have h1 := (groupKeys_mem o.labels t).mp ht
  have h2 : 2 ≤ (members ids o.labels t).length := by
    rw [members_length ids o.labels t hlen]
    exact hmin t h1.1 h1.2
  rw [if_neg (by omega)]

lemma output_count (o : TopicModel) (ids : List String) (s : String)
    (hlen : ids.length = o.labels.length)
    (hmin : ∀ t : Int, t ∈ o.labels → t ≠ -1 → 2 ≤ o.labels.count t) :
    (members ids o.labels (-1)).count s
      + ((sortClusters (buildClusters o ids)).map
          (fun c => c.articleIds.count s)).sum
      = ids.count s := by
  have hperm : ((sortClusters (buildClusters o ids)).map
        (fun c => c.articleIds.count s)).Perm
      ((buildClusters o ids).map (fun c => c.articleIds.count s)) :=
    (List.mergeSort_perm (buildClusters o ids) clusterLE).map _
  rw [List.Perm.sum_eq hperm, buildClusters_eq_map o ids hlen hmin, List.map_map]
  have hfun : ((fun c : ClusterResult => c.articleIds.count s) ∘ mkCluster o ids)
      = fun t => (ids.zip o.labels).countP (fun p => p.1 == s && p.2 == t) := by
    funext t
    exact members_count ids o.labels t s
  rw [hfun, members_count ids o.labels (-1) s]
  have hK : ((-1 : Int) :: groupKeys o.labels).Nodup := by
    rw [List.nodup_cons]
    exact ⟨fun h => ((groupKeys_mem o.labels (-1)).mp h).2 rfl,
      groupKeys_nodup o.labels⟩
  have hcov : ∀ p ∈ ids.zip o.labels,
      p.2 ∈ ((-1 : Int) :: groupKeys o.labels) := by
    intro p hp
    obtain ⟨a, b⟩ := p
    have hb : b ∈ o.labels := (List.of_mem_zip hp).2
    by_cases hb1 : b = -1
    · simp [hb1]
    · exact List.mem_cons_of_mem _ ((groupKeys_mem o.labels b).mpr ⟨hb, hb1⟩)
  have hpart := partition_countP s ((-1) :: groupKeys o.labels) hK
    (ids.zip o.labels) hcov
  rw [List.map_cons, List.sum_cons] at hpart
  rw [hpart, List.count_eq_countP]
  conv_rhs => rw [← List.map_fst_zip ids o.labels (le_of_eq hlen)]
  rw [List.countP_map]
  rfl

/-- Claim C1: for an input with pairwise-distinct ids on which the pipeline
returns a success result, and under the contract of the configured engine
(labels index-aligned with the documents, every non-outlier label carried by
at least min_topic_size = 2 documents, per line 89), every input article id
occurs exactly once across the articleIds of the clusters and unclusteredIds
taken together, except that an article with empty derived text occurs zero
times; and every id occurring in the output is an id of the input. -/
theorem C1_id_partition (o : TopicModel) (articles : List Article)
    (hnodup : (articles.map articleId).Nodup)
    (h3 : 3 ≤ articles.length) (hv : 3 ≤ (prepped articles).length)
    (hlen : o.labels.length = (prepped articles).length)
    (hmin : ∀ t : Int, t ∈ o.labels → t ≠ -1 → 2 ≤ o.labels.count t)
    (unc : List String)
    (hunc : (cluster_articles o articles).unclusteredIds = some unc) :
    (∀ a ∈ articles, derivedText a ≠ "" →
        unc.count (articleId a)
          + (((cluster_articles o articles).clusters).map
              (fun c => c.articleIds.count (articleId a))).sum = 1)
    ∧ (∀ a ∈ articles, derivedText a = "" →
        unc.count (articleId a)
          + (((cluster_articles o articles).clusters).map
              (fun c => c.articleIds.count (articleId a))).sum = 0)
    ∧ (∀ s : String,
        (s ∈ unc ∨ ∃ c ∈ (cluster_articles o articles).clusters, s ∈ c.articleIds)
          → s ∈ articles.map articleId) := by
  have hsucc := cluster_articles_success o articles h3 hv
  rw [hsucc] at hunc ⊢
  simp only [successResponse, Option.some.injEq] at hunc ⊢
  subst hunc
  have hlen2 : (docIds articles).length = o.labels.length := by
    rw [docIds, List.length_map]
    exact hlen.symm
  have hcount := fun s => output_count o (docIds articles) s hlen2 hmin
  have hids_nodup : (docIds articles).Nodup := by
    rw [docIds_eq]
    exact List.Nodup.sublist
      (List.Sublist.map articleId (List.filter_sublist articles)) hnodup
  have hmemid : ∀ a ∈ articles, derivedText a ≠ "" →
      articleId a ∈ docIds articles := by
    intro a ha hne
    rw [docIds_eq]
    exact List.mem_map_of_mem articleId
      (List.mem_filter.mpr ⟨ha, by simpa using hne⟩)
  have hsubid : ∀ s : String, s ∈ docIds articles → s ∈ articles.map articleId := by
    intro s hs
    rw [docIds_eq] at hs
    exact List.Sublist.subset
      (List.Sublist.map articleId (List.filter_sublist articles)) hs
  refine ⟨?_, ?_, ?_⟩
  · intro a ha hne
    rw [hcount (articleId a)]
    have hle := List.nodup_iff_count_le_one.mp hids_nodup (articleId a)
    have hpos := List.count_pos_iff.mpr (hmemid a ha hne)
    omega
  · intro a ha hempty
    rw [hcount (articleId a)]
    exact List.count_eq_zero.mpr (empty_text_id_not_mem hnodup ha hempty)
  · intro s hs
    rcases hs with hs | ⟨c, hc, hcs⟩
    · exact hsubid s (mem_members hs)
    · obtain ⟨t, _, _, hct⟩ := mem_buildClusters
        (show c ∈ buildClusters o (docIds articles) from
          List.mem_mergeSort.mp hc)
      subst hct
      exact hsubid s (mem_members hcs)

theorem C1_witness :
    ((arts4.map articleId).Nodup ∧ 3 ≤ arts4.length ∧ 3 ≤ (prepped arts4).length
      ∧ o4.labels.length = (prepped arts4).length
      ∧ (cluster_articles o4 arts4).unclusteredIds = some ["c", "d"]) ∧
    ((∀ a ∈ arts4, derivedText a ≠ "" →
        (["c", "d"] : List String).count (articleId a)
          + (((cluster_articles o4 arts4).clusters).map
              (fun c => c.articleIds.count (articleId a))).sum = 1)
     ∧ (∀ a ∈ arts4, derivedText a = "" →
        (["c", "d"] : List String).count (articleId a)
          + (((cluster_articles o4 arts4).clusters).map
              (fun c => c.articleIds.count (articleId a))).sum = 0)
     ∧ (∀ s : String,
        (s ∈ (["c", "d"] : List String)
          ∨ ∃ c ∈ (cluster_articles o4 arts4).clusters, s ∈ c.articleIds)
          → s ∈ arts4.map articleId)) :=
  have hmin : ∀ t : Int, t ∈ o4.labels → t ≠ -1 → 2 ≤ o4.labels.count t := by
    intro t ht hne
    have : t = 0 ∨ t = -1 := by
      simpa [o4] using ht
    rcases this with h | h
    · subst h; decide
    · exact absurd h hne
  ⟨⟨by decide, by decide, by decide, by decide, rfl⟩,
    C1_id_partition o4 arts4 (by decide) (by decide) (by decide) (by decide)
      hmin ["c", "d"] rfl⟩
